import Mathlib

/-
Verification of the dol HTTP framework (a koa-style request/response core).

This file gives a shallow embedding, in Lean, of the response/request/context
operations of the repository (src/lib/response.js, the context/request file,
src/lib/application.js) and proves or refutes the frozen specification claims
about them.  JavaScript objects become Lean structures, property setters become
pure state transformers, and a `throw` becomes an `Except.error` result (both
throws in the status setter occur before any assignment to the receiver, so an
error result with no new state is the faithful translation).  External npm
collaborators (mime-types, vary, fresh, the accept negotiator) are modelled by
small explicit stand-ins, each marked in its doc comment.
-/

namespace Dol

/-- Value stored under one response-header key: node header values are either a
single string or a list of strings (`setHeader` receives `String(val)` or
`val.map(String)`). -/
inductive HVal where
  | str (s : String)
  | list (l : List String)
deriving DecidableEq

/-- JavaScript truthiness of a header value: the empty string is falsy, every
other string and every array (even an empty one) is truthy. -/
def HVal.truthy : HVal → Bool
  | .str s => s != ""
  | .list _ => true

/-- The flattening `[original].concat(val)` / `original.concat(val)` used by
`append` in response.js. -/
def HVal.concatV (original v : HVal) : HVal :=
  .list ((match original with | .str s => [s] | .list l => l) ++
         (match v with | .str s => [s] | .list l => l))

/-- Response body values: `null` covers both JS `null` and `undefined` (the
setter tests `null == val`).  A stream is identified by a numeric id (object
identity); a structured (JSON-serializable) value is abstracted to an id, since
only its kind matters to the response state. -/
inductive BodyVal where
  | null
  | str (s : String)
  | buf (bytes : List Nat)
  | stream (id : Nat)
  | jsonv (id : Nat)
deriving DecidableEq

/-- JavaScript truthiness of a body value as tested by `if (this.body && ...)`:
`null`/`undefined` and the empty string are falsy; buffers, streams and
structured objects are truthy. -/
def BodyVal.truthy : BodyVal → Bool
  | .null => false
  | .str s => s != ""
  | .buf _ => true
  | .stream _ => true
  | .jsonv _ => true

/-- The `statuses` registry (statuses npm package): `statuses[code]` yields the
reason phrase of a registered code and `undefined` otherwise. -/
def statusesMsg (n : Nat) : Option String :=
  match n with
  | 100 => some "Continue"
  | 101 => some "Switching Protocols"
  | 102 => some "Processing"
  | 103 => some "Early Hints"
  | 200 => some "OK"
  | 201 => some "Created"
  | 202 => some "Accepted"
  | 203 => some "Non-Authoritative Information"
  | 204 => some "No Content"
  | 205 => some "Reset Content"
  | 206 => some "Partial Content"
  | 207 => some "Multi-Status"
  | 208 => some "Already Reported"
  | 226 => some "IM Used"
  | 300 => some "Multiple Choices"
  | 301 => some "Moved Permanently"
  | 302 => some "Found"
  | 303 => some "See Other"
  | 304 => some "Not Modified"
  | 305 => some "Use Proxy"
  | 306 => some "(Unused)"
  | 307 => some "Temporary Redirect"
  | 308 => some "Permanent Redirect"
  | 400 => some "Bad Request"
  | 401 => some "Unauthorized"
  | 402 => some "Payment Required"
  | 403 => some "Forbidden"
  | 404 => some "Not Found"
  | 405 => some "Method Not Allowed"
  | 406 => some "Not Acceptable"
  | 407 => some "Proxy Authentication Required"
  | 408 => some "Request Timeout"
  | 409 => some "Conflict"
  | 410 => some "Gone"
  | 411 => some "Length Required"
  | 412 => some "Precondition Failed"
  | 413 => some "Payload Too Large"
  | 414 => some "URI Too Long"
  | 415 => some "Unsupported Media Type"
  | 416 => some "Range Not Satisfiable"
  | 417 => some "Expectation Failed"
  | 418 => some "I\x27m a Teapot"
  | 421 => some "Misdirected Request"
  | 422 => some "Unprocessable Entity"
  | 423 => some "Locked"
  | 424 => some "Failed Dependency"
  | 425 => some "Unordered Collection"
  | 426 => some "Upgrade Required"
  | 428 => some "Precondition Required"
  | 429 => some "Too Many Requests"
  | 431 => some "Request Header Fields Too Large"
  | 451 => some "Unavailable For Legal Reasons"
  | 500 => some "Internal Server Error"
  | 501 => some "Not Implemented"
  | 502 => some "Bad Gateway"
  | 503 => some "Service Unavailable"
  | 504 => some "Gateway Timeout"
  | 505 => some "HTTP Version Not Supported"
  | 506 => some "Variant Also Negotiates"
  | 507 => some "Insufficient Storage"
  | 508 => some "Loop Detected"
  | 509 => some "Bandwidth Limit Exceeded"
  | 510 => some "Not Extended"
  | 511 => some "Network Authentication Required"
  | _ => none

/-- The `statuses.empty` map: codes that must never carry a body. -/
def statusesEmpty (n : Nat) : Bool :=
  n == 204 || n == 205 || n == 304

/-- The `statuses.redirect` map. -/
def statusesRedirect (n : Nat) : Bool :=
  n == 300 || n == 301 || n == 302 || n == 303 || n == 305 || n == 307 || n == 308

/-- Lower-casing of a header name (`field.toLowerCase()` / node's own
lower-casing of header names), written structurally over the character list. -/
def strLower (s : String) : String :=
  String.mk (s.toList.map Char.toLower)

/-- Splitting a character list on a separator character (JS `split(',')`). -/
def splitOnChar (sep : Char) : List Char → List (List Char)
  | [] => [[]]
  | x :: xs =>
      let r := splitOnChar sep xs
      if x = sep then [] :: r
      else
        match r with
        | h :: t => (x :: h) :: t
        | [] => [[x]]

/-- JS `split(',')` on a string. -/
def splitComma (s : String) : List String :=
  (splitOnChar ',' s.toList).map String.mk

/-- Left-trim of JS whitespace. -/
def dropLeadingWs (s : String) : String :=
  String.mk (s.toList.dropWhile Char.isWhitespace)

/-- Right-trim of JS whitespace. -/
def dropTrailingWs (s : String) : String :=
  String.mk ((s.toList.reverse.dropWhile Char.isWhitespace).reverse)

/-- Trim of JS whitespace on both ends. -/
def trimWs (s : String) : String :=
  dropLeadingWs (dropTrailingWs s)

/-- Raw incoming transport request (node IncomingMessage), restricted to the
fields this code reads.  Incoming header names arrive lower-cased.
`acceptsHtml` records the verdict of the external accept negotiator
(`this.request.accepts('html')` is truthy), an external collaborator. -/
structure RawReq where
  method : String
  httpVersionMajor : Nat
  headers : List (String × String)
  socketRemoteAddress : String
  acceptsHtml : Bool
deriving DecidableEq

/-- Raw outgoing transport response (node ServerResponse), restricted to the
fields this code touches.  Header keys are stored lower-cased, as node does.
`ended` records the payload handed to `res.end`, if it was called. -/
structure RawRes where
  statusCode : Nat
  statusMessage : String
  headersSent : Bool
  headers : List (String × HVal)
  finished : Bool
  hasSocket : Bool
  socketWritable : Bool
  ended : Option String
deriving DecidableEq

/-- The ResponseView state: the raw response plus the prototype's own fields
`_explicitStatus` and `_body` (src/lib/application.js createContext initializes
them to `false` and `null`, with `res.statusCode = 404`). -/
structure Resp where
  res : RawRes
  explicitStatus : Bool
  bodyV : BodyVal
deriving DecidableEq

/-- The `writable` getter of response.js: false once the response is finished,
otherwise the socket's writability (true when node has not set a socket). -/
def respWritable (res : RawRes) : Bool :=
  if res.finished then false
  else if res.hasSocket then res.socketWritable else true

/-- Raw header-map update, as node `setHeader` does after lower-casing the
name: replace any existing entry for the key. -/
def hdrSet (hs : List (String × HVal)) (k : String) (v : HVal) : List (String × HVal) :=
  (hs.filter (fun p => p.1 != k)) ++ [(k, v)]

/-- Raw header-map removal (node `removeHeader` after lower-casing). -/
def hdrRemove (hs : List (String × HVal)) (k : String) : List (String × HVal) :=
  hs.filter (fun p => p.1 != k)

/-- Raw header-map lookup (node `getHeaders()[k]`). -/
def hdrGet (hs : List (String × HVal)) (k : String) : Option HVal :=
  hs.lookup k

/-- The `set(field, val)` operation of response.js (two-argument form): a no-op
once headers are sent, otherwise `res.setHeader(field, val)`.  The
`String(val)` / `val.map(String)` coercion is applied by callers when they pass
an `HVal`. -/
def Resp.set (r : Resp) (field : String) (v : HVal) : Resp :=
  if r.res.headersSent then r
  else { r with res := { r.res with headers := hdrSet r.res.headers (strLower field) v } }

/-- The `get(field)` operation of response.js: case-insensitive lookup,
returning the empty string when the header is absent. -/
def Resp.getH (r : Resp) (field : String) : HVal :=
  (hdrGet r.res.headers (strLower field)).getD (.str "")

/-- The `append(field, val)` operation of response.js: merges with an existing
truthy value into a combined list, else a plain `set`; a no-op once headers are
sent. -/
def Resp.append (r : Resp) (field : String) (v : HVal) : Resp :=
  if r.res.headersSent then r
  else
    let original := r.getH field
    if original.truthy then r.set field (original.concatV v)
    else r.set field v

/-- The `remove(field)` operation of response.js: a no-op once headers are
sent, otherwise `res.removeHeader(field)`. -/
def Resp.removeH (r : Resp) (field : String) : Resp :=
  if r.res.headersSent then r
  else { r with res := { r.res with headers := hdrRemove r.res.headers (strLower field) } }

/-- Model of the external `vary` library: merge the field into the Vary header
without duplicating an existing token. -/
def varyMerge (hs : List (String × HVal)) (field : String) : List (String × HVal) :=
  match hdrGet hs "vary" with
  | none => hdrSet hs "vary" (.str field)
  | some (.str v) =>
      if v = "*" then hs
      else if ((splitComma v).map trimWs).contains field then hs
      else hdrSet hs "vary" (.str (v ++ ", " ++ field))
  | some (.list _) => hs

/-- The `vary(field)` operation of response.js: a no-op once headers are sent,
otherwise delegates to the external `vary` library on the raw response. -/
def Resp.varyH (r : Resp) (field : String) : Resp :=
  if r.res.headersSent then r
  else { r with res := { r.res with headers := varyMerge r.res.headers field } }

/-- Model of the external mime-types `contentType` lookup, restricted to the
type tokens this code passes; an unknown token yields `none` (the library
returns `false`). -/
def mimeContentType (t : String) : Option String :=
  if t = "html" then some "text/html; charset=utf-8"
  else if t = "text" then some "text/plain; charset=utf-8"
  else if t = "bin" then some "application/octet-stream"
  else if t = "json" then some "application/json; charset=utf-8"
  else none

/-- The `type` setter of response.js: set Content-Type to the looked-up value,
or remove Content-Type when the lookup fails. -/
def Resp.typeSet (r : Resp) (t : String) : Resp :=
  match mimeContentType t with
  | some ct => r.set "Content-Type" (.str ct)
  | none => r.removeH "Content-Type"

/-- The `length` setter of response.js: `set('Content-Length', n)` with node
stringifying the number. -/
def Resp.lengthSet (r : Resp) (n : Nat) : Resp :=
  r.set "Content-Length" (.str (toString n))

/-- The regular expression test of the body setter (string bodies that look
like markup start with optional whitespace followed by an angle bracket). -/
def looksLikeMarkup (s : String) : Bool :=
  match s.toList.dropWhile Char.isWhitespace with
  | [] => false
  | c :: _ => c = '<'

/-- The escape-html package: replace the five HTML-special characters. -/
def escapeHtmlChar (c : Char) : String :=
  if c = '&' then "&amp;"
  else if c = '"' then "&quot;"
  else if c = Char.ofNat 39 then "&#39;"
  else if c = '<' then "&lt;"
  else if c = '>' then "&gt;"
  else String.singleton c

/-- HTML-escaping of a whole string (escape-html package). -/
def escapeHtml (s : String) : String :=
  String.join (s.toList.map escapeHtmlChar)

/-- The mutation core of the status setter for a registered code: record the
explicit-status flag, assign `res.statusCode`, and assign `res.statusMessage`
from the registry when the request is HTTP/1.x.  The body-nulling step of the
full setter is factored out (see `applyStatus`), because the setter is also
re-entered from the body setter with a body that is already null or a code that
is not an empty-body code, where that step cannot fire. -/
def applyStatusBase (req : RawReq) (r : Resp) (n : Nat) : Resp :=
  let r := { r with explicitStatus := true, res := { r.res with statusCode := n } }
  if req.httpVersionMajor < 2 then
    { r with res := { r.res with statusMessage := (statusesMsg n).getD "" } }
  else r

/-- Truthiness of `this.headers['content-type']` in the body setter: the
header counts as set only when present with a truthy value. -/
def ctSet (hdrs : List (String × HVal)) : Bool :=
  match hdrGet hdrs "content-type" with
  | some v => v.truthy
  | none => false

/-- The `!this._explicitStatus` step of the body setter: `this.status = 200`,
whose setter begins with the headers-sent guard; with the body known non-null
and 200 not an empty-body code, the setter reduces to `applyStatusBase`. -/
def implicit200 (req : RawReq) (r : Resp) : Resp :=
  if r.explicitStatus then r
  else if r.res.headersSent then r
  else applyStatusBase req r 200

/-- The body setter of response.js.  `destroy(original)` for a replaced stream
and the `onFinished`/`inject` registrations for a new stream touch only
external resources, never the response state, so they leave no trace here.
In the null branch, `this.status = 204` runs the status setter with a body that
is already null, so it reduces to the guarded `applyStatusBase`. -/
def setBody (req : RawReq) (r : Resp) (val : BodyVal) : Resp :=
  let original := r.bodyV
  let r := { r with bodyV := val }
  if val = .null then
    let r :=
      if statusesEmpty r.res.statusCode then r
      else if r.res.headersSent then r
      else applyStatusBase req r 204
    ((r.removeH "Content-Type").removeH "Content-Length").removeH "Transfer-Encoding"
  else
    let r := implicit200 req r
    let typeUnset := ! ctSet r.res.headers
    match val with
    | .null => r
    | .str s =>
        let r := if typeUnset then r.typeSet (if looksLikeMarkup s then "html" else "text") else r
        r.lengthSet s.utf8ByteSize
    | .buf bytes =>
        let r := if typeUnset then r.typeSet "bin" else r
        r.lengthSet bytes.length
    | .stream _ =>
        let r := if typeUnset then r.typeSet "bin" else r
        if original ≠ .null ∧ original ≠ val then r.removeH "Content-Length" else r
    | .jsonv _ =>
        let r := r.typeSet "json"
        r.removeH "Content-Length"

/-- The full status setter body for a registered code (after the guard and the
two validations): mutate, then null the body when it is truthy and the new code
is an empty-body code. -/
def applyStatus (req : RawReq) (r : Resp) (n : Nat) : Resp :=
  let r := applyStatusBase req r n
  if r.bodyV.truthy ∧ statusesEmpty n then setBody req r .null else r

/-- Argument to the status setter: a JS number or any other value (carried as
its `%j` rendering, which only feeds the error message). -/
inductive StatusArg where
  | num (n : Nat)
  | other (srepr : String)
deriving DecidableEq

/-- A thrown JS exception: TypeError or RangeError with its message. -/
inductive JsErr where
  | typeErr (msg : String)
  | rangeErr (msg : String)
deriving DecidableEq

/-- The status setter of response.js: silent return once headers are sent,
TypeError for a non-number, RangeError for an unregistered code (both thrown
before any assignment, hence the error result carries no state change), and
otherwise the mutation `applyStatus`. -/
def setStatus (req : RawReq) (r : Resp) (code : StatusArg) : Except JsErr Resp :=
  if r.res.headersSent then .ok r
  else
    match code with
    | .other s => .error (.typeErr ("non-numeric status code: " ++ s))
    | .num n =>
        match statusesMsg n with
        | none => .error (.rangeErr ("invalid status code: " ++ toString n))
        | some _ => .ok (applyStatus req r n)

/-- The request `get(field)` of the request prototype: lower-case the name,
special-case Referer/Referrer, and return the empty string for an absent
header. -/
def reqGet (req : RawReq) (field : String) : String :=
  let f := strLower field
  if f = "referer" ∨ f = "referrer" then
    let a := (req.headers.lookup "referrer").getD ""
    if a != "" then a else (req.headers.lookup "referer").getD ""
  else (req.headers.lookup f).getD ""

/-- JS `split(/\s*,\s*/)`: pieces are separated at each comma, and the
whitespace immediately around each comma is consumed by the separator. -/
def jsSplitCommaWs (s : String) : List String :=
  let ps := splitComma s
  let n := ps.length
  ps.enum.map (fun p =>
    let q := if 0 < p.1 then dropLeadingWs p.2 else p.2
    if p.1 + 1 < n then dropTrailingWs q else q)

/-- The `ips` getter of the request prototype: without proxy trust, the single
socket address; with proxy trust, the comma-split X-Forwarded-For value when
that header is truthy, and the empty list otherwise. -/
def reqIps (proxy : Bool) (req : RawReq) : List String :=
  if ¬ proxy then [req.socketRemoteAddress]
  else
    let forwarded := reqGet req "X-Forwarded-For"
    if forwarded != "" then jsSplitCommaWs forwarded else []

/-- The destination computed on entry to `redirect`: the literal "back" means
the request's Referrer header, else `alt`, else "/" (the JS `||` chain treats
an absent and an empty value alike); `alt` is `none` when omitted. -/
def redirectTarget (req : RawReq) (url : String) (alt : Option String) : String :=
  if url = "back" then
    let ref := reqGet req "Referrer"
    if ref != "" then ref
    else match alt with
      | some a => if a != "" then a else "/"
      | none => "/"
  else url

/-- The `redirect(url, alt)` operation of response.js. -/
def redirect (req : RawReq) (r : Resp) (url : String) (alt : Option String) : Resp :=
  let url := redirectTarget req url alt
  let r := r.set "Location" (.str url)
  let r :=
    if statusesRedirect r.res.statusCode then r
    else if r.res.headersSent then r
    else applyStatus req r 302
  if req.acceptsHtml then
    let u := escapeHtml url
    let r := r.typeSet "html"
    setBody req r (.str ("Redirecting to <a href=\"" ++ u ++ "\">" ++ u ++ "</a>."))
  else
    let r := r.typeSet "text"
    setBody req r (.str ("Redirecting to " ++ url ++ "."))

/-- An error value as interpreted by `context.onerror`: the fields the handler
reads.  `status` is `none` when absent or non-numeric (the code checks
`typeof error.status === 'number'`). -/
structure ErrObj where
  code : Option String
  status : Option Nat
  expose : Bool
  message : String
  headers : List (String × String)
deriving DecidableEq

/-- What reaches `onerror`: null/undefined, a non-Error value (carried as its
`%j` rendering), or an Error object. -/
inductive ErrVal where
  | nullish
  | nonError (srepr : String)
  | err (e : ErrObj)
deriving DecidableEq

/-- The wrapping step of `onerror`: a non-Error value becomes a TypeError with
a diagnostic message and no code/status/expose/headers of its own. -/
def wrapErr : ErrVal → Option ErrObj
  | .nullish => none
  | .nonError s =>
      some { code := none, status := none, expose := false
             message := "non-error thrown: " ++ s, headers := [] }
  | .err e => some e

/-- The one-argument `set(map)` form of response.js used by `onerror` for
`error.headers`: one `set(key, String(value))` per entry. -/
def respSetMap (r : Resp) (m : List (String × String)) : Resp :=
  m.foldl (fun r p => r.set p.1 (.str p.2)) r

/-- The `context.onerror(error)` handler.  The guard reads `res.headerSent`,
a property the raw node response does not define (node exposes `headersSent`),
so that read yields undefined (falsy) and the guard reduces to writability;
marking `error.headerSent` and the app-level error emit touch no response
state.  On the writable path: every response header is removed on the raw
response, the error's own headers are re-applied, the status is resolved
(default 500, 404 for code ENOENT, the error's own registered status wins),
the message is the error's message only when exposable, and the response is
ended with that message. -/
def onerror (req : RawReq) (r : Resp) (v : ErrVal) : Resp :=
  match wrapErr v with
  | none => r
  | some e =>
      if ¬ respWritable r.res then r
      else
        let r := { r with res := { r.res with headers := [] } }
        let r := respSetMap r e.headers
        let status := 500
        let status := if e.code = some "ENOENT" then 404 else status
        let status :=
          match e.status with
          | some s => if (statusesMsg s).isSome then s else status
          | none => status
        let message := if e.expose then e.message else (statusesMsg status).getD ""
        let r := if r.res.headersSent then r else applyStatus req r status
        let r := r.typeSet "text"
        let r := r.lengthSet message.utf8ByteSize
        { r with res := { r.res with ended := some message } }

/-- Model of the external `fresh` package (cache validation of request headers
against response headers); the HTTP-date comparison for If-Modified-Since is
abstracted to string equality, which the claims never exercise. -/
def freshLib (reqH : List (String × String)) (resH : List (String × HVal)) : Bool :=
  let modifiedSince := (reqH.lookup "if-modified-since").getD ""
  let noneMatch := (reqH.lookup "if-none-match").getD ""
  if modifiedSince = "" ∧ noneMatch = "" then false
  else
    let cacheControl := (reqH.lookup "cache-control").getD ""
    if ((splitComma cacheControl).map trimWs).contains "no-cache" then false
    else
      let etagOk : Bool :=
        if noneMatch = "" then true
        else if noneMatch = "*" then true
        else
          match resH.lookup "etag" with
          | some (.str etag) =>
              ((splitComma noneMatch).map trimWs).any
                (fun t => t == etag || t == "W/" ++ etag || "W/" ++ t == etag)
          | _ => false
      let dateOk : Bool :=
        if modifiedSince = "" then true
        else
          match resH.lookup "last-modified" with
          | some (.str lm) => lm == modifiedSince
          | _ => false
      etagOk && dateOk

/-- Reading the `status` property of the raw transport response, as
`get fresh` does via `this.res.status`: node's ServerResponse defines
`statusCode` but no `status`, so the read always yields undefined. -/
def rawStatusProp (_res : RawRes) : Option Nat := none

/-- The `fresh` getter of the request prototype, as written: it reads
`this.res.status` (undefined, see `rawStatusProp`), so both range tests on it
are false.  The comparison call in the in-range branch is modelled with the
intended header maps (the prototypes actually define `headers`, not the
`header` the call names), but that branch is unreachable. -/
def ctxFresh (req : RawReq) (res : RawRes) : Bool :=
  if req.method ≠ "GET" ∧ req.method ≠ "HEAD" then false
  else
    match rawStatusProp res with
    | some status =>
        if (200 ≤ status ∧ status < 300) ∨ status = 304 then freshLib req.headers res.headers
        else false
    | none => false

/-- Modelled from the spec: freshness is valid only for GET/HEAD and only when
the response status is 2xx or 304, and then delegates to the cache-validation
comparison of the request headers against the response headers. -/
def freshSpec (req : RawReq) (res : RawRes) : Bool :=
  if req.method ≠ "GET" ∧ req.method ≠ "HEAD" then false
  else if (200 ≤ res.statusCode ∧ res.statusCode < 300) ∨ res.statusCode = 304 then
    freshLib req.headers res.headers
  else false

/-! ### Helper lemmas on the header map and on field preservation -/

theorem hdrGet_hdrRemove_self (hs : List (String × HVal)) (k : String) :
    hdrGet (hdrRemove hs k) k = none := by
  induction hs with
  | nil => rfl
  | cons p t ih =>
      obtain ⟨k1, v1⟩ := p
      by_cases h : k1 = k
      · simpa [hdrRemove, hdrGet, List.filter_cons, h] using ih
      · have hb : (k == k1) = false := beq_eq_false_iff_ne.mpr (Ne.symm h)
        simpa [hdrRemove, hdrGet, List.filter_cons, h, List.lookup, hb] using ih

theorem hdrGet_hdrRemove_other (hs : List (String × HVal)) (k k' : String) (h : k' ≠ k) :
    hdrGet (hdrRemove hs k) k' = hdrGet hs k' := by
  induction hs with
  | nil => rfl
  | cons p t ih =>
      obtain ⟨k1, v1⟩ := p
      by_cases h1 : k1 = k
      · subst h1
        have hb : (k' == k1) = false := beq_eq_false_iff_ne.mpr h
        simpa [hdrRemove, hdrGet, List.filter_cons, List.lookup, hb] using ih
      · by_cases h2 : k' = k1
        · have hb : (k' == k1) = true := beq_iff_eq.mpr h2
          simp [hdrRemove, hdrGet, List.filter_cons, List.lookup, h1, hb]
        · have hb : (k' == k1) = false := beq_eq_false_iff_ne.mpr h2
          simpa [hdrRemove, hdrGet, List.filter_cons, List.lookup, h1, hb] using ih

theorem hdrGet_hdrSet_self (hs : List (String × HVal)) (k : String) (v : HVal) :
    hdrGet (hdrSet hs k v) k = some v := by
  induction hs with
  | nil => simp [hdrSet, hdrGet, List.lookup]
  | cons p t ih =>
      obtain ⟨k1, v1⟩ := p
      by_cases h : k1 = k
      · simpa [hdrSet, hdrGet, List.filter_cons, h] using ih
      · have hb : (k == k1) = false := beq_eq_false_iff_ne.mpr (Ne.symm h)
        simpa [hdrSet, hdrGet, List.filter_cons, List.lookup, h, hb] using ih

theorem hdrGet_hdrSet_other (hs : List (String × HVal)) (k k' : String) (v : HVal)
    (h : k' ≠ k) : hdrGet (hdrSet hs k v) k' = hdrGet hs k' := by
  induction hs with
  | nil =>
      have hb : (k' == k) = false := beq_eq_false_iff_ne.mpr h
      simp [hdrSet, hdrGet, List.lookup, hb]
  | cons p t ih =>
      obtain ⟨k1, v1⟩ := p
      by_cases h1 : k1 = k
      · subst h1
        have hb : (k' == k1) = false := beq_eq_false_iff_ne.mpr h
        simpa [hdrSet, hdrGet, List.filter_cons, List.lookup, hb] using ih
      · by_cases h2 : k' = k1
        · have hb : (k' == k1) = true := beq_iff_eq.mpr h2
          simp [hdrSet, hdrGet, List.filter_cons, List.lookup, h1, hb]
        · have hb : (k' == k1) = false := beq_eq_false_iff_ne.mpr h2
          simpa [hdrSet, hdrGet, List.filter_cons, List.lookup, h1, hb] using ih

@[simp] theorem set_headersSent (r : Resp) (f : String) (v : HVal) :
    (r.set f v).res.headersSent = r.res.headersSent := by
  unfold Resp.set; split <;> rfl

@[simp] theorem removeH_headersSent (r : Resp) (f : String) :
    (r.removeH f).res.headersSent = r.res.headersSent := by
  unfold Resp.removeH; split <;> rfl

@[simp] theorem typeSet_headersSent (r : Resp) (t : String) :
    (r.typeSet t).res.headersSent = r.res.headersSent := by
  unfold Resp.typeSet; cases mimeContentType t <;> simp

@[simp] theorem lengthSet_headersSent (r : Resp) (n : Nat) :
    (r.lengthSet n).res.headersSent = r.res.headersSent := by
  unfold Resp.lengthSet; simp

@[simp] theorem applyStatusBase_headersSent (req : RawReq) (r : Resp) (n : Nat) :
    (applyStatusBase req r n).res.headersSent = r.res.headersSent := by
  unfold applyStatusBase; split <;> rfl

@[simp] theorem set_statusCode (r : Resp) (f : String) (v : HVal) :
    (r.set f v).res.statusCode = r.res.statusCode := by
  unfold Resp.set; split <;> rfl

@[simp] theorem removeH_statusCode (r : Resp) (f : String) :
    (r.removeH f).res.statusCode = r.res.statusCode := by
  unfold Resp.removeH; split <;> rfl

@[simp] theorem typeSet_statusCode (r : Resp) (t : String) :
    (r.typeSet t).res.statusCode = r.res.statusCode := by
  unfold Resp.typeSet; cases mimeContentType t <;> simp

@[simp] theorem lengthSet_statusCode (r : Resp) (n : Nat) :
    (r.lengthSet n).res.statusCode = r.res.statusCode := by
  unfold Resp.lengthSet; simp

@[simp] theorem applyStatusBase_statusCode (req : RawReq) (r : Resp) (n : Nat) :
    (applyStatusBase req r n).res.statusCode = n := by
  unfold applyStatusBase; split <;> rfl

@[simp] theorem applyStatusBase_explicitStatus (req : RawReq) (r : Resp) (n : Nat) :
    (applyStatusBase req r n).explicitStatus = true := by
  unfold applyStatusBase; split <;> rfl

@[simp] theorem applyStatusBase_bodyV (req : RawReq) (r : Resp) (n : Nat) :
    (applyStatusBase req r n).bodyV = r.bodyV := by
  unfold applyStatusBase; split <;> rfl

@[simp] theorem applyStatusBase_headers (req : RawReq) (r : Resp) (n : Nat) :
    (applyStatusBase req r n).res.headers = r.res.headers := by
  unfold applyStatusBase; split <;> rfl

@[simp] theorem set_bodyV (r : Resp) (f : String) (v : HVal) :
    (r.set f v).bodyV = r.bodyV := by
  unfold Resp.set; split <;> rfl

@[simp] theorem removeH_bodyV (r : Resp) (f : String) :
    (r.removeH f).bodyV = r.bodyV := by
  unfold Resp.removeH; split <;> rfl

@[simp] theorem typeSet_bodyV (r : Resp) (t : String) :
    (r.typeSet t).bodyV = r.bodyV := by
  unfold Resp.typeSet; cases mimeContentType t <;> simp

@[simp] theorem lengthSet_bodyV (r : Resp) (n : Nat) :
    (r.lengthSet n).bodyV = r.bodyV := by
  unfold Resp.lengthSet; simp

@[simp] theorem set_explicitStatus (r : Resp) (f : String) (v : HVal) :
    (r.set f v).explicitStatus = r.explicitStatus := by
  unfold Resp.set; split <;> rfl

@[simp] theorem removeH_explicitStatus (r : Resp) (f : String) :
    (r.removeH f).explicitStatus = r.explicitStatus := by
  unfold Resp.removeH; split <;> rfl

@[simp] theorem typeSet_explicitStatus (r : Resp) (t : String) :
    (r.typeSet t).explicitStatus = r.explicitStatus := by
  unfold Resp.typeSet; cases mimeContentType t <;> simp

@[simp] theorem lengthSet_explicitStatus (r : Resp) (n : Nat) :
    (r.lengthSet n).explicitStatus = r.explicitStatus := by
  unfold Resp.lengthSet; simp

theorem set_headers_of_not_sent (r : Resp) (f : String) (v : HVal)
    (hs : r.res.headersSent = false) :
    (r.set f v).res.headers = hdrSet r.res.headers (strLower f) v := by
  simp [Resp.set, hs]

theorem removeH_headers_of_not_sent (r : Resp) (f : String)
    (hs : r.res.headersSent = false) :
    (r.removeH f).res.headers = hdrRemove r.res.headers (strLower f) := by
  simp [Resp.removeH, hs]

@[simp] theorem implicit200_headers (req : RawReq) (r : Resp) :
    (implicit200 req r).res.headers = r.res.headers := by
  unfold implicit200; split
  · rfl
  · split <;> simp

@[simp] theorem implicit200_headersSent (req : RawReq) (r : Resp) :
    (implicit200 req r).res.headersSent = r.res.headersSent := by
  unfold implicit200; split
  · rfl
  · split <;> simp

@[simp] theorem implicit200_bodyV (req : RawReq) (r : Resp) :
    (implicit200 req r).bodyV = r.bodyV := by
  unfold implicit200; split
  · rfl
  · split <;> simp

theorem implicit200_statusCode (req : RawReq) (r : Resp) (hs : r.res.headersSent = false) :
    (implicit200 req r).res.statusCode =
      (if r.explicitStatus then r.res.statusCode else 200) := by
  unfold implicit200; split
  · simp_all
  · simp_all

theorem lower_contentType : strLower "Content-Type" = "content-type" := rfl

theorem lower_contentLength : strLower "Content-Length" = "content-length" := rfl

theorem lower_transferEncoding : strLower "Transfer-Encoding" = "transfer-encoding" := rfl

theorem lower_location : strLower "Location" = "location" := rfl

theorem lengthSet_headers (r : Resp) (n : Nat) (hs : r.res.headersSent = false) :
    (r.lengthSet n).res.headers = hdrSet r.res.headers "content-length" (.str (toString n)) := by
  simp [Resp.lengthSet, Resp.set, hs, lower_contentLength]

theorem typeSet_headers_known (r : Resp) (t ct : String) (hm : mimeContentType t = some ct)
    (hs : r.res.headersSent = false) :
    (r.typeSet t).res.headers = hdrSet r.res.headers "content-type" (.str ct) := by
  simp [Resp.typeSet, hm, Resp.set, hs, lower_contentType]

theorem applyStatus_statusCode (req : RawReq) (r : Resp) (n : Nat) :
    (applyStatus req r n).res.statusCode = n := by
  unfold applyStatus
  by_cases hb : (applyStatusBase req r n).bodyV.truthy = true ∧ statusesEmpty n = true
  · rw [if_pos hb]
    simp [setBody, hb.2]
  · rw [if_neg hb]
    simp

@[simp] theorem respSetMap_headersSent (m : List (String × String)) (r : Resp) :
    (respSetMap r m).res.headersSent = r.res.headersSent := by
  induction m generalizing r with
  | nil => rfl
  | cons p t ih =>
      have hstep : respSetMap r (p :: t) = respSetMap (r.set p.1 (.str p.2)) t := rfl
      rw [hstep, ih]
      simp

theorem setBody_str_bodyV (req : RawReq) (r : Resp) (s : String) :
    (setBody req r (.str s)).bodyV = .str s := by
  simp only [setBody]
  rw [if_neg (by simp)]
  split <;> simp

theorem setBody_str_statusCode (req : RawReq) (r : Resp) (s : String)
    (hx : r.explicitStatus = true) :
    (setBody req r (.str s)).res.statusCode = r.res.statusCode := by
  simp only [setBody]
  rw [if_neg (by simp)]
  split <;> simp [implicit200, hx]

theorem setBody_str_hdrGet_other (req : RawReq) (r : Resp) (s k : String)
    (h1 : k ≠ "content-type") (h2 : k ≠ "content-length")
    (hs : r.res.headersSent = false) :
    hdrGet (setBody req r (.str s)).res.headers k = hdrGet r.res.headers k := by
  by_cases hct : ctSet r.res.headers
  · simp [setBody, hct, lengthSet_headers, hs, hdrGet_hdrSet_other _ _ _ _ h2]
  · by_cases hmk : looksLikeMarkup s <;>
      simp [setBody, hct, hmk, lengthSet_headers, Resp.typeSet, mimeContentType,
        Resp.set, lower_contentType, hs, hdrGet_hdrSet_other _ _ _ _ h1,
        hdrGet_hdrSet_other _ _ _ _ h2]

/-! ### Demo fixtures for witnesses and counterexamples -/

/-- A plain HTTP/1.1 GET request with no headers. -/
def demoReq : RawReq :=
  { method := "GET", httpVersionMajor := 1, headers := []
    socketRemoteAddress := "10.0.0.1", acceptsHtml := true }

/-- A raw response exactly as `createContext` initializes it. -/
def startRes : RawRes :=
  { statusCode := 404, statusMessage := "", headersSent := false, headers := []
    finished := false, hasSocket := true, socketWritable := true, ended := none }

/-- A ResponseView exactly as `createContext` initializes it. -/
def startResp : Resp :=
  { res := startRes, explicitStatus := false, bodyV := .null }

/-- A response whose transport has already sent its headers. -/
def sentResp : Resp :=
  { res := { startRes with headersSent := true }, explicitStatus := false, bodyV := .null }

/-! ### Claim theorems -/

/-- C10.  Once the transport reports headers sent, the status setter returns
at once for every argument, numeric or not, registered or not: no exception,
and no change to the status code, the explicit-status flag, or the body. -/
theorem setStatus_noop_after_send (req : RawReq) (r : Resp) (code : StatusArg)
    (hs : r.res.headersSent = true) : setStatus req r code = .ok r := by
  simp [setStatus, hs]

/-- Witness for C10: a non-numeric status assigned to an already-sent response
neither throws nor changes anything. -/
theorem setStatus_noop_after_send_witness :
    setStatus demoReq sentResp (.other "banana") = .ok sentResp :=
  setStatus_noop_after_send demoReq sentResp (.other "banana") rfl

/-- C6.  Once the transport reports headers sent, every header-mutating
operation of the response (set, append, remove, vary) returns without raising
and leaves the response state unchanged. -/
theorem headersSent_header_mutations_are_noops (r : Resp) (field : String) (v : HVal)
    (hs : r.res.headersSent = true) :
    r.set field v = r ∧ r.append field v = r ∧ r.removeH field = r ∧ r.varyH field = r := by
  refine ⟨?_, ?_, ?_, ?_⟩ <;> simp [Resp.set, Resp.append, Resp.removeH, Resp.varyH, hs]

/-- Witness for C6: mutating a header on an already-sent response changes
nothing. -/
theorem headersSent_header_mutations_are_noops_witness :
    sentResp.set "X-Test" (.str "1") = sentResp ∧
    sentResp.append "X-Test" (.str "1") = sentResp ∧
    sentResp.removeH "X-Test" = sentResp ∧
    sentResp.varyH "Accept" = sentResp :=
  headersSent_header_mutations_are_noops sentResp "X-Test" (.str "1") rfl

/-- C3.  On a response whose headers are not yet sent (late writes are the
no-op mode settled by C6/C10) and whose current status is not an empty-body
status, setting the body to null or undefined forces the status to 204 and
removes the Content-Type, Content-Length and Transfer-Encoding headers. -/
theorem nullBody_forces_204_and_strips_entity_headers (req : RawReq) (r : Resp)
    (hs : r.res.headersSent = false) (he : statusesEmpty r.res.statusCode = false) :
    (setBody req r .null).res.statusCode = 204 ∧
    (setBody req r .null).bodyV = .null ∧
    hdrGet (setBody req r .null).res.headers "content-type" = none ∧
    hdrGet (setBody req r .null).res.headers "content-length" = none ∧
    hdrGet (setBody req r .null).res.headers "transfer-encoding" = none := by
  have key : setBody req r .null =
      (((applyStatusBase req { r with bodyV := .null } 204).removeH
          "Content-Type").removeH "Content-Length").removeH "Transfer-Encoding" := by
    simp [setBody, hs, he]
  set r1 := applyStatusBase req { r with bodyV := BodyVal.null } 204 with hr1
  have hs1 : r1.res.headersSent = false := by rw [hr1]; simpa using hs
  have hs2 : (r1.removeH "Content-Type").res.headersSent = false := by simpa using hs1
  have hs3 : ((r1.removeH "Content-Type").removeH "Content-Length").res.headersSent = false := by
    simpa using hs1
  have hdrs : ((((r1.removeH "Content-Type").removeH "Content-Length").removeH
      "Transfer-Encoding")).res.headers =
      hdrRemove (hdrRemove (hdrRemove r1.res.headers "content-type") "content-length")
        "transfer-encoding" := by
    rw [removeH_headers_of_not_sent _ _ hs3, removeH_headers_of_not_sent _ _ hs2,
      removeH_headers_of_not_sent _ _ hs1, lower_contentType, lower_contentLength,
      lower_transferEncoding]
  rw [key]
  refine ⟨by simp [hr1], by simp [hr1], ?_, ?_, ?_⟩
  · rw [hdrs, hdrGet_hdrRemove_other _ _ _ (by decide), hdrGet_hdrRemove_other _ _ _ (by decide)]
    exact hdrGet_hdrRemove_self _ _
  · rw [hdrs, hdrGet_hdrRemove_other _ _ _ (by decide)]
    exact hdrGet_hdrRemove_self _ _
  · rw [hdrs]
    exact hdrGet_hdrRemove_self _ _

/-- A response mid-request: explicit status 200, a string body, and the
matching entity headers already set. -/
def entityResp : Resp :=
  { res := { startRes with
      statusCode := 200
      headers := [("content-type", .str "text/plain; charset=utf-8"),
                  ("content-length", .str "2")] }
    explicitStatus := true
    bodyV := .str "hi" }

/-- Witness for C3: on a 200 response carrying a string body and entity
headers, assigning null yields status 204 with the three headers gone. -/
theorem nullBody_forces_204_and_strips_entity_headers_witness :
    statusesEmpty entityResp.res.statusCode = false ∧
    ((setBody demoReq entityResp .null).res.statusCode = 204 ∧
      (setBody demoReq entityResp .null).bodyV = .null ∧
      hdrGet (setBody demoReq entityResp .null).res.headers "content-type" = none ∧
      hdrGet (setBody demoReq entityResp .null).res.headers "content-length" = none ∧
      hdrGet (setBody demoReq entityResp .null).res.headers "transfer-encoding" = none) :=
  ⟨rfl, nullBody_forces_204_and_strips_entity_headers demoReq entityResp rfl rfl⟩

/-- C2.  On a response whose headers are not yet sent (the sent state is the
silent no-op mode settled by C10): a non-numeric status argument throws a
TypeError, a numeric argument outside the status registry throws a RangeError
(in the embedding an error result carries no state, mirroring that both throws
precede every assignment in the source), and a registered code c is stored so
that reading the status returns c. -/
theorem setStatus_validates_and_roundtrips (req : RawReq) (r : Resp)
    (hs : r.res.headersSent = false) :
    (∀ s : String, setStatus req r (.other s) =
        .error (.typeErr ("non-numeric status code: " ++ s))) ∧
    (∀ n : Nat, statusesMsg n = none → setStatus req r (.num n) =
        .error (.rangeErr ("invalid status code: " ++ toString n))) ∧
    (∀ n : Nat, (statusesMsg n).isSome = true →
        Except.map (fun x => x.res.statusCode) (setStatus req r (.num n)) = .ok n) := by
  refine ⟨fun s => by simp [setStatus, hs], fun n hn => by simp [setStatus, hs, hn], fun n hn => ?_⟩
  obtain ⟨m, hm⟩ := Option.isSome_iff_exists.mp hn
  have hsc : (applyStatus req r n).res.statusCode = n := by
    unfold applyStatus
    by_cases hb : (applyStatusBase req r n).bodyV.truthy = true ∧ statusesEmpty n = true
    · rw [if_pos hb]
      have hsc0 : ({ applyStatusBase req r n with bodyV := BodyVal.null } : Resp).res.statusCode
          = n := by simp
      simp [setBody, hb.2]
    · rw [if_neg hb]
      simp
  simp [setStatus, hs, hm, Except.map, hsc]

/-- Witness for C2: a boolean argument raises the type error, code 600 raises
the range error, and code 201 round-trips. -/
theorem setStatus_validates_and_roundtrips_witness :
    setStatus demoReq startResp (.other "true") =
      .error (.typeErr ("non-numeric status code: " ++ "true")) ∧
    setStatus demoReq startResp (.num 600) =
      .error (.rangeErr ("invalid status code: " ++ toString (600 : Nat))) ∧
    Except.map (fun x => x.res.statusCode) (setStatus demoReq startResp (.num 201)) = .ok 201 :=
  ⟨(setStatus_validates_and_roundtrips demoReq startResp rfl).1 "true",
   (setStatus_validates_and_roundtrips demoReq startResp rfl).2.1 600 rfl,
   (setStatus_validates_and_roundtrips demoReq startResp rfl).2.2 201 rfl⟩

/-- A response carrying the empty string as its body: non-null in JS, yet
falsy, so the status setter's `if (this.body && ...)` does not null it. -/
def emptyStrResp : Resp :=
  { res := { startRes with statusCode := 200 }, explicitStatus := true, bodyV := .str "" }

/-- Counterexample to C1 as stated: the empty string is a non-null body, but
setting the empty-body status 204 on it leaves the body equal to the empty
string rather than null, because the setter tests JS truthiness of the body,
not non-nullness. -/
theorem emptyStatus_keeps_empty_string_body :
    Except.map (fun x => x.bodyV) (setStatus demoReq emptyStrResp (.num 204)) =
      .ok (.str "") ∧ BodyVal.str "" ≠ BodyVal.null := by
  exact ⟨rfl, by decide⟩

/-- C1 amended.  On a response whose headers are not yet sent, setting a
registered empty-body status nulls the body whenever the body is truthy
(non-null and, for strings, non-empty); and the round trip
status 204, body x, status 204 leaves the body null. -/
theorem emptyStatus_nulls_truthy_body :
    (∀ (req : RawReq) (r : Resp) (n : Nat), r.res.headersSent = false →
        r.bodyV.truthy = true → statusesEmpty n = true →
        Except.map (fun x => x.bodyV) (setStatus req r (.num n)) = .ok .null) ∧
    Except.bind (setStatus demoReq startResp (.num 204)) (fun r1 =>
      Except.map (fun r3 => r3.bodyV)
        (setStatus demoReq (setBody demoReq r1 (.str "x")) (.num 204))) = .ok .null := by
  constructor
  · intro req r n h1 h2 h3
    have h3' : (n = 204 ∨ n = 205) ∨ n = 304 := by
      simpa [statusesEmpty] using h3
    have hbody : ∀ (m : Nat) (msg : String), statusesMsg m = some msg →
        statusesEmpty m = true →
        Except.map (fun x => x.bodyV) (setStatus req r (.num m)) = .ok .null := by
      intro m msg hm hme
      simp only [setStatus, h1, Bool.false_eq_true, if_false, hm]
      have ht : (applyStatusBase req r m).bodyV.truthy = true ∧ statusesEmpty m = true := by
        constructor
        · simpa using h2
        · exact hme
      simp only [applyStatus, if_pos ht, Except.map]
      simp [setBody, hme]
    rcases h3' with (rfl | rfl) | rfl
    · exact hbody 204 "No Content" rfl rfl
    · exact hbody 205 "Reset Content" rfl rfl
    · exact hbody 304 "Not Modified" rfl rfl
  · rfl

/-- A mid-request response carrying a truthy string body. -/
def truthyBodyResp : Resp :=
  { res := { startRes with statusCode := 200 }, explicitStatus := true, bodyV := .str "x" }

/-- Witness for the amended C1: a truthy body is nulled by assigning 204. -/
theorem emptyStatus_nulls_truthy_body_witness :
    Except.map (fun x => x.bodyV) (setStatus demoReq truthyBodyResp (.num 204)) =
      .ok .null :=
  emptyStatus_nulls_truthy_body.1 demoReq truthyBodyResp 204 rfl rfl rfl

/-- A response on which middleware already set a Content-Type. -/
def presetTypeResp : Resp :=
  { res := { startRes with
      statusCode := 200
      headers := [("content-type", .str "text/plain; charset=utf-8")] }
    explicitStatus := true
    bodyV := .null }

/-- Counterexample to C4 as stated: a structured (JSON) body does not leave a
middleware-set Content-Type unchanged — the json branch of the body setter
assigns the JSON type unconditionally. -/
theorem jsonBody_overwrites_content_type :
    hdrGet presetTypeResp.res.headers "content-type" =
      some (.str "text/plain; charset=utf-8") ∧
    hdrGet (setBody demoReq presetTypeResp (.jsonv 0)).res.headers "content-type" =
      some (.str "application/json; charset=utf-8") := by
  exact ⟨rfl, rfl⟩

/-- C4 amended.  On a response whose headers are not yet sent: a string body
infers html/plain-text Content-Type and a buffer or stream body the octet
type, in each case only when no truthy Content-Type is already present, while
a structured (JSON) body always sets the JSON type, overriding any existing
one; Content-Length is set eagerly to the byte length for string and buffer
bodies, cleared for structured bodies and for stream bodies replacing a
different previous body (left alone on a first stream assignment); and any
non-null body forces status 200 when no explicit status was ever set. -/
theorem nonNullBody_infers_type_and_length (req : RawReq) (r : Resp)
    (hs : r.res.headersSent = false) :
    (∀ val : BodyVal, val ≠ .null →
        (setBody req r val).res.statusCode =
          (if r.explicitStatus then r.res.statusCode else 200)) ∧
    (∀ s : String,
        hdrGet (setBody req r (.str s)).res.headers "content-type" =
          (if ctSet r.res.headers then hdrGet r.res.headers "content-type"
           else some (.str (if looksLikeMarkup s then "text/html; charset=utf-8"
             else "text/plain; charset=utf-8"))) ∧
        hdrGet (setBody req r (.str s)).res.headers "content-length" =
          some (.str (toString s.utf8ByteSize))) ∧
    (∀ bytes : List Nat,
        hdrGet (setBody req r (.buf bytes)).res.headers "content-type" =
          (if ctSet r.res.headers then hdrGet r.res.headers "content-type"
           else some (.str "application/octet-stream")) ∧
        hdrGet (setBody req r (.buf bytes)).res.headers "content-length" =
          some (.str (toString bytes.length))) ∧
    (∀ sid : Nat,
        hdrGet (setBody req r (.stream sid)).res.headers "content-type" =
          (if ctSet r.res.headers then hdrGet r.res.headers "content-type"
           else some (.str "application/octet-stream")) ∧
        hdrGet (setBody req r (.stream sid)).res.headers "content-length" =
          (if r.bodyV ≠ .null ∧ r.bodyV ≠ .stream sid then none
           else hdrGet r.res.headers "content-length")) ∧
    (∀ jid : Nat,
        hdrGet (setBody req r (.jsonv jid)).res.headers "content-type" =
          some (.str "application/json; charset=utf-8") ∧
        hdrGet (setBody req r (.jsonv jid)).res.headers "content-length" = none) := by
  have hcl : ("content-type" : String) ≠ "content-length" := by decide
  have hlc : ("content-length" : String) ≠ "content-type" := by decide
  refine ⟨?_, ?_, ?_, ?_, ?_⟩
  · intro val hval
    cases val with
    | null => exact absurd rfl hval
    | str s =>
        simp only [setBody]
        rw [if_neg (by simp)]
        split <;> simp [implicit200_statusCode, hs]
    | buf bytes =>
        simp only [setBody]
        rw [if_neg (by simp)]
        split <;> simp [implicit200_statusCode, hs]
    | stream sid =>
        simp only [setBody]
        rw [if_neg (by simp)]
        split <;> split <;> simp [implicit200_statusCode, hs]
    | jsonv jid =>
        simp only [setBody]
        rw [if_neg (by simp)]
        simp [implicit200_statusCode, hs]
  · intro s
    by_cases hct : ctSet r.res.headers
    · constructor <;>
        simp [setBody, hct, lengthSet_headers, typeSet_headers_known, hs,
          hdrGet_hdrSet_self, hdrGet_hdrSet_other _ _ _ _ hcl,
          hdrGet_hdrSet_other _ _ _ _ hlc]
    · by_cases hmk : looksLikeMarkup s <;>
        constructor <;>
          simp [setBody, hct, hmk, lengthSet_headers, Resp.typeSet, mimeContentType,
            Resp.set, lower_contentType, hs, hdrGet_hdrSet_self,
            hdrGet_hdrSet_other _ _ _ _ hcl, hdrGet_hdrSet_other _ _ _ _ hlc]
  · intro bytes
    by_cases hct : ctSet r.res.headers <;>
      constructor <;>
        simp [setBody, hct, lengthSet_headers, Resp.typeSet, mimeContentType,
          Resp.set, lower_contentType, hs, hdrGet_hdrSet_self,
          hdrGet_hdrSet_other _ _ _ _ hcl, hdrGet_hdrSet_other _ _ _ _ hlc]
  · intro sid
    by_cases hov : r.bodyV ≠ .null ∧ r.bodyV ≠ .stream sid <;>
      by_cases hct : ctSet r.res.headers <;>
        constructor <;>
          simp [setBody, hov, hct, Resp.typeSet, mimeContentType, Resp.set,
            Resp.removeH, lower_contentType, lower_contentLength, hs,
            hdrGet_hdrSet_self, hdrGet_hdrSet_other _ _ _ _ hcl,
            hdrGet_hdrSet_other _ _ _ _ hlc, hdrGet_hdrRemove_self,
            hdrGet_hdrRemove_other _ _ _ hcl]
  · intro jid
    constructor <;>
      simp [setBody, Resp.typeSet, mimeContentType, Resp.set, Resp.removeH,
        lower_contentType, lower_contentLength, hs, hdrGet_hdrSet_self,
        hdrGet_hdrSet_other _ _ _ _ hcl, hdrGet_hdrRemove_self,
        hdrGet_hdrRemove_other _ _ _ hcl]

/-- Witness for the amended C4: on a fresh response, a plain string body gets
the plain-text type and its byte length, and a structured body forces status
200. -/
theorem nonNullBody_infers_type_and_length_witness :
    hdrGet (setBody demoReq startResp (.str "hi")).res.headers "content-type" =
      some (.str "text/plain; charset=utf-8") ∧
    hdrGet (setBody demoReq startResp (.str "hi")).res.headers "content-length" =
      some (.str "2") ∧
    (setBody demoReq startResp (.jsonv 7)).res.statusCode = 200 := by
  have h := nonNullBody_infers_type_and_length demoReq startResp rfl
  refine ⟨?_, ?_, ?_⟩
  · have h1 := (h.2.1 "hi").1
    rw [h1]; rfl
  · have h2 := (h.2.1 "hi").2
    rw [h2]; rfl
  · have h3 := h.1 (.jsonv 7) (by simp)
    rw [h3]; rfl

/-- C5.  For an error handled by `context.onerror` while the response is still
writable and its headers unsent (otherwise the handler only notifies and
writes nothing): the status written to the transport defaults to 500, becomes
404 for the filesystem not-found code, and becomes the error's own status when
that status is registered (the error's own status takes precedence over
ENOENT); the payload the response is ended with is the error's message exactly
when the error is marked expose, and otherwise the generic reason phrase of
the resolved status. -/
theorem onerror_resolves_status_and_message (req : RawReq) (r : Resp) (e : ErrObj)
    (hw : respWritable r.res = true) (hs : r.res.headersSent = false) :
    (onerror req r (.err e)).res.statusCode =
      (match e.status with
       | some s => if (statusesMsg s).isSome then s
           else if e.code = some "ENOENT" then 404 else 500
       | none => if e.code = some "ENOENT" then 404 else 500) ∧
    (onerror req r (.err e)).res.ended =
      some (if e.expose then e.message
        else (statusesMsg (match e.status with
          | some s => if (statusesMsg s).isSome then s
              else if e.code = some "ENOENT" then 404 else 500
          | none => if e.code = some "ENOENT" then 404 else 500)).getD "") := by
  constructor
  · simp only [onerror, wrapErr, hw]
    simp [respSetMap_headersSent, hs, applyStatus_statusCode]
  · simp only [onerror, wrapErr, hw]
    simp [respSetMap_headersSent, hs, applyStatus_statusCode]

/-- An unexposed client error, as in the spec's exposure scenario. -/
def demoErr : ErrObj :=
  { code := none, status := some 400, expose := false, message := "boom", headers := [] }

/-- Witness for C5: an unexposed 400 error yields status 400 and the generic
reason phrase, not the error's own message. -/
theorem onerror_resolves_status_and_message_witness :
    (onerror demoReq startResp (.err demoErr)).res.statusCode = 400 ∧
    (onerror demoReq startResp (.err demoErr)).res.ended = some "Bad Request" := by
  have h := onerror_resolves_status_and_message demoReq startResp demoErr rfl rfl
  exact ⟨by rw [h.1]; rfl, by rw [h.2]; rfl⟩

/-- C7.  On a response whose headers are not yet sent and in a reachable state
(a redirect status code can only have been stored by the status setter, which
records the explicit flag): `redirect(url, alt)` sets Location to the target
("back" means Referrer, else alt, else "/"), forces status 302 unless the
current status is already a redirect code, and sets an HTML anchor body with
the target HTML-escaped when the request accepts html, else a plain-text body
naming the target. -/
theorem redirectStep_facts (req : RawReq) (rr : Resp) (hsent : rr.res.headersSent = false)
    (hx : statusesRedirect rr.res.statusCode = true → rr.explicitStatus = true) :
    (if statusesRedirect rr.res.statusCode then rr
     else if rr.res.headersSent then rr
     else applyStatus req rr 302).res.statusCode =
      (if statusesRedirect rr.res.statusCode then rr.res.statusCode else 302) ∧
    (if statusesRedirect rr.res.statusCode then rr
     else if rr.res.headersSent then rr
     else applyStatus req rr 302).explicitStatus = true ∧
    (if statusesRedirect rr.res.statusCode then rr
     else if rr.res.headersSent then rr
     else applyStatus req rr 302).res.headers = rr.res.headers ∧
    (if statusesRedirect rr.res.statusCode then rr
     else if rr.res.headersSent then rr
     else applyStatus req rr 302).res.headersSent = false := by
  by_cases hr : statusesRedirect rr.res.statusCode
  · simp [hr, hx hr, hsent]
  · have h302 : statusesEmpty 302 = false := rfl
    simp [hr, hsent, applyStatus, h302]

theorem redirect_sets_location_status_and_body (req : RawReq) (r : Resp)
    (url : String) (alt : Option String)
    (hs : r.res.headersSent = false)
    (hinv : statusesRedirect r.res.statusCode = true → r.explicitStatus = true) :
    hdrGet (redirect req r url alt).res.headers "location" =
      some (.str (redirectTarget req url alt)) ∧
    (redirect req r url alt).res.statusCode =
      (if statusesRedirect r.res.statusCode then r.res.statusCode else 302) ∧
    (redirect req r url alt).bodyV =
      .str (if req.acceptsHtml then
          "Redirecting to <a href=\"" ++ escapeHtml (redirectTarget req url alt) ++ "\">" ++
            escapeHtml (redirectTarget req url alt) ++ "</a>."
        else "Redirecting to " ++ redirectTarget req url alt ++ ".") := by
  obtain ⟨hsc2, hex2, hhd2, hsent2⟩ :=
    redirectStep_facts req (r.set "Location" (.str (redirectTarget req url alt)))
      (by simpa using hs) (by simpa using hinv)
  refine ⟨?_, ?_, ?_⟩
  · by_cases hah : req.acceptsHtml = true
    · simp only [redirect, if_pos hah]
      rw [setBody_str_hdrGet_other _ _ _ _ (by decide) (by decide) (by simpa using hsent2)]
      rw [typeSet_headers_known _ "html" "text/html; charset=utf-8" rfl hsent2]
      rw [hdrGet_hdrSet_other _ _ _ _ (by decide)]
      rw [hhd2]
      rw [set_headers_of_not_sent _ _ _ hs, lower_location, hdrGet_hdrSet_self]
    · simp only [redirect, if_neg hah]
      rw [setBody_str_hdrGet_other _ _ _ _ (by decide) (by decide) (by simpa using hsent2)]
      rw [typeSet_headers_known _ "text" "text/plain; charset=utf-8" rfl hsent2]
      rw [hdrGet_hdrSet_other _ _ _ _ (by decide)]
      rw [hhd2]
      rw [set_headers_of_not_sent _ _ _ hs, lower_location, hdrGet_hdrSet_self]
  · by_cases hah : req.acceptsHtml = true
    · simp only [redirect, if_pos hah]
      rw [setBody_str_statusCode _ _ _ (by simpa using hex2)]
      rw [typeSet_statusCode, hsc2]
      simp
    · simp only [redirect, if_neg hah]
      rw [setBody_str_statusCode _ _ _ (by simpa using hex2)]
      rw [typeSet_statusCode, hsc2]
      simp
  · by_cases hah : req.acceptsHtml = true
    · simp only [redirect, if_pos hah]
      rw [setBody_str_bodyV]
    · simp only [redirect, if_neg hah]
      rw [setBody_str_bodyV]

/-- A request carrying a Referer header, for the redirect "back" scenario. -/
def refReq : RawReq :=
  { method := "GET", httpVersionMajor := 1, headers := [("referer", "/prev")]
    socketRemoteAddress := "", acceptsHtml := true }

/-- Witness for C7: on a fresh response, `redirect('back')` with
`Referer: /prev` sets Location /prev, status 302, and the anchor body. -/
theorem redirect_sets_location_status_and_body_witness :
    hdrGet (redirect refReq startResp "back" none).res.headers "location" =
      some (.str "/prev") ∧
    (redirect refReq startResp "back" none).res.statusCode = 302 ∧
    (redirect refReq startResp "back" none).bodyV =
      .str "Redirecting to <a href=\"/prev\">/prev</a>." := by
  have h := redirect_sets_location_status_and_body refReq startResp "back" none rfl
    (by intro hcon; exact absurd hcon (by decide))
  exact ⟨by rw [h.1]; rfl, by rw [h.2.1]; rfl, by rw [h.2.2]; rfl⟩

/-- The request of the freshness scenario: a GET revalidation whose
If-None-Match matches the response's ETag. -/
def freshReq : RawReq :=
  { method := "GET", httpVersionMajor := 1, headers := [("if-none-match", "\"abc\"")]
    socketRemoteAddress := "", acceptsHtml := false }

/-- The raw response of the freshness scenario: a 200 with a matching ETag. -/
def freshRes : RawRes :=
  { startRes with statusCode := 200, headers := [("etag", .str "\"abc\"")] }

/-- C8.  The `fresh` getter as written always returns false: it reads
`this.res.status`, a property the raw transport response does not define (the
transport carries `statusCode`), so the 2xx/304 test can never pass and the
cache-validation comparison is unreachable — while the specified behaviour
(freshSpec) returns true on a GET 200 whose If-None-Match matches the ETag. -/
theorem fresh_always_false_despite_spec :
    (∀ (req : RawReq) (res : RawRes), ctxFresh req res = false) ∧
    freshSpec freshReq freshRes = true := by
  constructor
  · intro req res
    simp [ctxFresh, rawStatusProp]
  · rfl

/-- A request reaching the server through a trusted proxy chain but carrying
no X-Forwarded-For header. -/
def proxyReqNoXff : RawReq :=
  { method := "GET", httpVersionMajor := 1, headers := []
    socketRemoteAddress := "1.2.3.4", acceptsHtml := false }

/-- Counterexample to C9 as stated: with proxy trust on and X-Forwarded-For
absent, `ips` is the empty list, not the one-element list of the socket
address. -/
theorem ips_empty_list_when_proxy_without_forwarded :
    reqIps true proxyReqNoXff = [] ∧
    ([] : List String) ≠ [proxyReqNoXff.socketRemoteAddress] := by
  exact ⟨rfl, by decide⟩

theorem lower_xff : strLower "X-Forwarded-For" = "x-forwarded-for" := rfl

/-- C9 amended.  Without proxy trust, `ips` is the one-element list of the
socket's remote address (whatever X-Forwarded-For says); with proxy trust, it
is the comma-split X-Forwarded-For list when that header is present and
non-empty, and the empty list when it is absent or empty. -/
theorem ips_proxy_and_socket (proxy : Bool) (req : RawReq) :
    reqIps proxy req =
      (if proxy then
        (if (req.headers.lookup "x-forwarded-for").getD "" != "" then
          jsSplitCommaWs ((req.headers.lookup "x-forwarded-for").getD "")
         else [])
       else [req.socketRemoteAddress]) := by
  cases proxy
  · simp [reqIps]
  · simp only [reqIps, reqGet, lower_xff]
    simp

end Dol
